import Mathlib

/-!
Verification development for the ACR-RallyWorks rally setup calculator.

The Python sources are shallowly embedded:

* `src/setup_calculator.py` — the formula pipeline (`SetupCalculator.calculate_setup`
  together with its three stage helpers) operates on a string-keyed dictionary.
  We embed the dictionary as an association list keyed by an enumeration
  `SetupKey` whose constructors are named exactly after the dictionary keys,
  and model every numeric value as a rational number (Python ints and floats
  both become `ℚ`; `int(round(x))` becomes round-half-to-even on `ℚ`).
  Dictionary reads are modelled as `Option`-returning lookups, so the whole
  pipeline is an `Option`-valued computation: `none` corresponds to a Python
  `KeyError`, i.e. an uncaught exception.

* `src/dirt_converter.py` — the tabular provider (`DirtConverter`) with its
  `ACRRanges` table, clamping helpers and comparison engine.  `int(parts[i])`
  parses are modelled with `Option`, so `generate_rallyworks_setup` is also
  `Option`-valued, `none` again standing for an exception.

* `src/gui.py` — the `EditableSetup` value store with its fail-soft
  validation, together with `extract_number` / `get_comparison_color`.
  Values that may be either numbers or strings in Python are modelled by the
  tagged union `PyVal`.
-/

namespace RallyWorks

/-! Rational arithmetic helpers.  All values of the embedding live in `ℚ`;
the operations and decimal constants are spelled with `mkRat` and integer
arithmetic so that every definition evaluates by definitional reduction
(`decide`/`rfl`).  Bridge lemmas below identify them with the ordinary
field operations on `ℚ`. -/

/-- Multiplication on `ℚ` (an evaluable spelling of `a * b`). -/
def qmul (a b : ℚ) : ℚ := mkRat (a.num * b.num) (a.den * b.den)

/-- Addition on `ℚ` (an evaluable spelling of `a + b`). -/
def qadd (a b : ℚ) : ℚ := mkRat (a.num * b.den + b.num * a.den) (a.den * b.den)

/-- Subtraction on `ℚ` (an evaluable spelling of `a - b`). -/
def qsub (a b : ℚ) : ℚ := mkRat (a.num * b.den - b.num * a.den) (a.den * b.den)

/-- Absolute value on `ℚ` (an evaluable spelling of `|a|`). -/
def qabs (a : ℚ) : ℚ := if a < 0 then mkRat (-a.num) a.den else a

/-- Floor on `ℚ` (an evaluable spelling of `⌊a⌋`). -/
def qfloor (a : ℚ) : ℤ := Int.fdiv a.num a.den

/-- Python `round` (round-half-to-even, "banker's rounding") on rationals,
as applied by the source's `int(round(x))` writes.  The sources compute in
IEEE doubles; we model the arithmetic exactly over `ℚ`. -/
def pyRound (q : ℚ) : ℤ :=
  let f : ℤ := qfloor q
  let r : ℚ := qsub q (mkRat f 1)
  if r < mkRat 1 2 then f
  else if mkRat 1 2 < r then f + 1
  else if f % 2 = 0 then f else f + 1

/-- Lookup in a Python-style dictionary modelled as an association list:
`d[k]` returning `none` for a missing key (a `KeyError` in Python). -/
def dget {α : Type} [DecidableEq α] (d : List (α × ℚ)) (k : α) : Option ℚ :=
  match d.find? (fun p => decide (p.1 = k)) with
  | some p => some p.2
  | none => none

/-- Store into a Python-style dictionary: `d[k] = v` replaces the value when
the key is present (keys are unique, so the first hit is the only one) and
appends the binding at the end otherwise. -/
def dset {α : Type} [DecidableEq α] : List (α × ℚ) → α → ℚ → List (α × ℚ)
  | [], k, v => [(k, v)]
  | p :: t, k, v => if p.1 = k then (k, v) :: t else p :: dset t k v

/-- Embeds `dict.get(k, default)` — lookup with a default. -/
def dgetD {α : Type} [DecidableEq α] (d : List (α × ℚ)) (k : α) (v : ℚ) : ℚ :=
  match dget d k with
  | some x => x
  | none => v

/-! ### Enumerations (`Surface`, `TrackCondition`, `Weather`, `CarClass`) -/

/-- Embeds `Surface` enum from `setup_calculator.py`. -/
inductive Surface where
  | ASPHALT
  | GRAVEL
  | SNOW
  deriving DecidableEq, Fintype

/-- Embeds `TrackCondition` enum from `setup_calculator.py`. -/
inductive TrackCondition where
  | SMOOTH
  | BUMPY
  | LOOSE
  | MIXED
  | ICE
  | DEEP_GRAVEL
  | WET_MUD
  deriving DecidableEq, Fintype

/-- Embeds `Weather` enum from `setup_calculator.py`. -/
inductive Weather where
  | DRY
  | DAMP
  | WET
  | FOG
  | COLD
  | HOT
  deriving DecidableEq, Fintype

/-- Embeds `CarClass` enum from `setup_calculator.py`. -/
inductive CarClass where
  | GROUP_A_4WD
  | WRC
  | R5_RALLY2
  | GROUP_B_4WD
  | GROUP_B_RWD
  | RALLY4_RWD
  | FWD_KITCAR
  | RWD_HISTORIC
  | RALLY_GT
  | CROSSKART
  | GROUP_S
  deriving DecidableEq, Fintype

/-- The keys of the working setup dictionary (`BASE_SETUP` and everything the
pipeline reads or writes).  Constructors are named exactly after the Python
dictionary's string keys. -/
inductive SetupKey where
  | FrontCamber
  | RearCamber
  | FrontToe
  | RearToe
  | Caster
  | RideHeightF
  | RideHeightR
  | SpringRateF
  | SpringRateR
  | ARBFront
  | ARBRear
  | SlowBumpF
  | SlowReboundF
  | FastBumpF
  | FastReboundF
  | SlowBumpR
  | SlowReboundR
  | FastBumpR
  | FastReboundR
  | BrakeBias
  | BrakePressure
  | FrontDiffAccel
  | FrontDiffDecel
  | FrontDiffPreload
  | RearDiffAccel
  | RearDiffDecel
  | RearDiffPreload
  deriving DecidableEq

/-- The working parameter dictionary of the pipeline. -/
abbrev SDict := List (SetupKey × ℚ)

open SetupKey in
/-- Embeds `BASE_SETUP` from `setup_calculator.py` (Group A / Lancia Delta baseline). -/
def BASE_SETUP : SDict := [
  (FrontCamber, mkRat (-17) 10),
  (RearCamber, mkRat (-23) 10),
  (FrontToe, mkRat (-5) 10000),
  (RearToe, mkRat 5 10000),
  (Caster, 5),
  (RideHeightF, mkRat 51 1000),
  (RideHeightR, mkRat 48 1000),
  (SpringRateF, 70000),
  (SpringRateR, 50000),
  (ARBFront, 18500),
  (ARBRear, 16500),
  (SlowBumpF, 5000),
  (SlowReboundF, 8000),
  (FastBumpF, 3500),
  (FastReboundF, 5250),
  (SlowBumpR, 4000),
  (SlowReboundR, 6250),
  (FastBumpR, 2500),
  (FastReboundR, 4500),
  (BrakeBias, mkRat 65 100),
  (BrakePressure, 95),
  (FrontDiffAccel, 60),
  (FrontDiffDecel, 75),
  (FrontDiffPreload, 0),
  (RearDiffAccel, 45),
  (RearDiffDecel, 70),
  (RearDiffPreload, 0)]

/-- One entry of `CAR_CLASS_CONFIGS`: the `name` / `philosophy` / `traction`
strings plus the numeric key overrides applied on top of `BASE_SETUP`. -/
structure CarConfig where
  name : String
  philosophy : String
  traction : String
  overrides : List (SetupKey × ℚ)

open SetupKey in
/-- Embeds `CAR_CLASS_CONFIGS` from `setup_calculator.py`. -/
def CAR_CLASS_CONFIGS : CarClass → CarConfig
  | CarClass.GROUP_A_4WD =>
    { name := "Group A (4WD) - Lancia Delta"
      philosophy := "ACR Reference: High Front Stiffness, Sharp Entry"
      traction := "4WD"
      overrides := [] }
  | CarClass.WRC =>
    { name := "WRC (2017+) (4WD)"
      philosophy := "WRC Aero Platform: Maximum Downforce"
      traction := "4WD"
      overrides := [
        (SpringRateF, 110000), (SpringRateR, 95000),
        (ARBFront, 40000), (ARBRear, 35000),
        (RideHeightF, mkRat 25 1000), (RideHeightR, mkRat 30 1000),
        (FrontCamber, mkRat (-25) 10), (RearCamber, mkRat (-22) 10),
        (BrakeBias, mkRat 58 100),
        (FrontDiffAccel, 50), (FrontDiffDecel, 60),
        (RearDiffAccel, 50), (RearDiffDecel, 60)] }
  | CarClass.R5_RALLY2 =>
    { name := "R5 / Rally2 (4WD)"
      philosophy := "R5 Platform: Balanced Performance"
      traction := "4WD"
      overrides := [
        (SpringRateF, 85000), (SpringRateR, 65000),
        (ARBFront, 25000), (ARBRear, 22000),
        (RideHeightF, mkRat 40 1000), (RideHeightR, mkRat 45 1000),
        (FrontCamber, mkRat (-22) 10), (RearCamber, mkRat (-20) 10),
        (FrontDiffAccel, 45), (FrontDiffDecel, 60), (FrontDiffPreload, 10),
        (RearDiffAccel, 45), (RearDiffDecel, 45), (RearDiffPreload, 20)] }
  | CarClass.GROUP_B_4WD =>
    { name := "Group B (4WD) - Historic"
      philosophy := "Group B 4WD: Raw Power Management"
      traction := "4WD"
      overrides := [
        (SpringRateF, 60000), (SpringRateR, 45000),
        (ARBFront, 15000), (ARBRear, 12000),
        (RideHeightF, mkRat 55 1000), (RideHeightR, mkRat 60 1000),
        (FrontDiffAccel, 50), (FrontDiffDecel, 65),
        (RearDiffAccel, 40), (RearDiffDecel, 60)] }
  | CarClass.GROUP_B_RWD =>
    { name := "Group B (RWD) - Historic"
      philosophy := "Group B RWD: Power Oversteer Control"
      traction := "RWD"
      overrides := [
        (SpringRateF, 50000), (SpringRateR, 35000),
        (ARBFront, 10000), (ARBRear, 5000),
        (RideHeightF, mkRat 65 1000), (RideHeightR, mkRat 70 1000),
        (RearDiffAccel, 35), (RearDiffDecel, 45), (RearDiffPreload, 50),
        (BrakeBias, mkRat 54 100)] }
  | CarClass.RALLY4_RWD =>
    { name := "Modern RWD - Rally4"
      philosophy := "Modern RWD: Precision Handling"
      traction := "RWD"
      overrides := [
        (SpringRateF, 55000), (SpringRateR, 45000),
        (ARBFront, 18000), (ARBRear, 8000),
        (RideHeightF, mkRat 50 1000), (RideHeightR, mkRat 55 1000),
        (RearDiffAccel, 40), (RearDiffDecel, 55), (RearDiffPreload, 25)] }
  | CarClass.FWD_KITCAR =>
    { name := "FWD (KitCar/Rally4)"
      philosophy := "FWD: Front Traction Priority"
      traction := "FWD"
      overrides := [
        (SpringRateF, 90000), (SpringRateR, 100000),
        (ARBFront, 20000), (ARBRear, 45000),
        (RideHeightF, mkRat 45 1000), (RideHeightR, mkRat 55 1000),
        (FrontDiffAccel, 30), (FrontDiffDecel, 60), (FrontDiffPreload, 60),
        (BrakeBias, mkRat 72 100)] }
  | CarClass.RWD_HISTORIC =>
    { name := "RWD (Historic) - Escort/BMW"
      philosophy := "Historic RWD: Mechanical Grip"
      traction := "RWD"
      overrides := [
        (SpringRateF, 45000), (SpringRateR, 40000),
        (ARBFront, 12000), (ARBRear, 5000),
        (RideHeightF, mkRat 65 1000), (RideHeightR, mkRat 70 1000),
        (RearDiffAccel, 40), (RearDiffDecel, 40), (RearDiffPreload, 40)] }
  | CarClass.RALLY_GT =>
    { name := "Rally GT (RWD) - Porsche/Mustang"
      philosophy := "Rally GT: Power Delivery Control"
      traction := "RWD"
      overrides := [
        (SpringRateF, 75000), (SpringRateR, 60000),
        (ARBFront, 22000), (ARBRear, 15000),
        (RideHeightF, mkRat 60 1000), (RideHeightR, mkRat 65 1000),
        (RearDiffAccel, 45), (RearDiffDecel, 60), (RearDiffPreload, 30)] }
  | CarClass.CROSSKART =>
    { name := "Crosskart (AWD)"
      philosophy := "Crosskart: Lightweight Chassis Dynamics"
      traction := "4WD"
      overrides := [
        (SpringRateF, 40000), (SpringRateR, 38000),
        (ARBFront, 10000), (ARBRear, 8000),
        (RideHeightF, mkRat 70 1000), (RideHeightR, mkRat 75 1000),
        (FrontDiffAccel, 55), (FrontDiffDecel, 70),
        (RearDiffAccel, 50), (RearDiffDecel, 65)] }
  | CarClass.GROUP_S =>
    { name := "Group S (Prototype)"
      philosophy := "Group S: Experimental Advanced Setup"
      traction := "4WD"
      overrides := [
        (SpringRateF, 100000), (SpringRateR, 85000),
        (ARBFront, 35000), (ARBRear, 30000),
        (RideHeightF, mkRat 30 1000), (RideHeightR, mkRat 35 1000),
        (FrontCamber, mkRat (-28) 10), (RearCamber, mkRat (-25) 10),
        (FrontDiffAccel, 45), (FrontDiffDecel, 55),
        (RearDiffAccel, 40), (RearDiffDecel, 55)] }

/-! ### Stage write helpers

Each corresponds to one syntactic form of write in the Python stage code;
they read the current value, so a missing key yields `none` (`KeyError`). -/

/-- Embeds `Option.bind`, kept out of line so that long sequences of fallible
dictionary writes compile without code duplication. -/
@[noinline] def obind {α β : Type} (x : Option α) (f : α → Option β) : Option β :=
  Option.bind x f

/-- Embeds `setup[k] = int(round(setup[k] * f))`. -/
def mulRoundW (d : SDict) (k : SetupKey) (f : ℚ) : Option SDict :=
  (dget d k).map fun v => dset d k (mkRat (pyRound (qmul v f)) 1)

/-- Embeds `setup[k] += x`. -/
def addW (d : SDict) (k : SetupKey) (x : ℚ) : Option SDict :=
  (dget d k).map fun v => dset d k (qadd v x)

/-- Embeds `setup[k] = x` (no read, never fails). -/
def setW (d : SDict) (k : SetupKey) (x : ℚ) : SDict := dset d k x

/-- Embeds `setup[k] = max(lo, setup[k] - delta)` — the per-stage diff-accel floor. -/
def subFloorW (d : SDict) (k : SetupKey) (lo delta : ℚ) : Option SDict :=
  (dget d k).map fun v => dset d k (max lo (qsub v delta))

open SetupKey in
/-- Embeds `SetupCalculator._apply_surface_mods` from `setup_calculator.py`. -/
def apply_surface_mods (surface : Surface) (sp : SDict × String) :
    Option (SDict × String) :=
  match surface with
  | Surface.GRAVEL =>
    let profile := sp.2 ++ " | Gravel Compliance"
    obind (mulRoundW sp.1 SpringRateF (mkRat 65 100)) fun d =>
    obind (mulRoundW d SpringRateR (mkRat 65 100)) fun d =>
    obind (mulRoundW d ARBFront (mkRat 45 100)) fun d =>
    obind (mulRoundW d ARBRear (mkRat 40 100)) fun d =>
    obind (addW d RideHeightF (mkRat 30 1000)) fun d =>
    obind (addW d RideHeightR (mkRat 35 1000)) fun d =>
    let d := setW d FrontCamber (mkRat (-1) 1)
    let d := setW d RearCamber (mkRat (-1) 1)
    obind (mulRoundW d SlowBumpF (mkRat 6 10)) fun d =>
    obind (mulRoundW d SlowReboundF (mkRat 6 10)) fun d =>
    obind (mulRoundW d FastBumpF (mkRat 6 10)) fun d =>
    obind (mulRoundW d FastReboundF (mkRat 6 10)) fun d =>
    obind (mulRoundW d SlowBumpR (mkRat 6 10)) fun d =>
    obind (mulRoundW d SlowReboundR (mkRat 6 10)) fun d =>
    obind (mulRoundW d FastBumpR (mkRat 6 10)) fun d =>
    obind (mulRoundW d FastReboundR (mkRat 6 10)) fun d =>
    obind (subFloorW d FrontDiffAccel 40 10) fun d =>
    obind (subFloorW d RearDiffAccel 35 10) fun d =>
    some (d, profile)
  | Surface.SNOW =>
    let profile := sp.2 ++ " | Snow/Ice Compliance"
    obind (mulRoundW sp.1 SpringRateF (mkRat 5 10)) fun d =>
    obind (mulRoundW d SpringRateR (mkRat 45 100)) fun d =>
    obind (mulRoundW d ARBFront (mkRat 3 10)) fun d =>
    obind (mulRoundW d ARBRear (mkRat 25 100)) fun d =>
    obind (addW d RideHeightF (mkRat 55 1000)) fun d =>
    obind (addW d RideHeightR (mkRat 60 1000)) fun d =>
    let d := setW d FrontCamber (mkRat (-5) 10)
    let d := setW d RearCamber (mkRat (-5) 10)
    let d := setW d FrontDiffAccel 80
    let d := setW d FrontDiffDecel 85
    let d := setW d RearDiffAccel 75
    let d := setW d RearDiffDecel 80
    let d := setW d BrakeBias (mkRat 52 100)
    some (d, profile)
  | Surface.ASPHALT => some sp

open SetupKey in
/-- Embeds `SetupCalculator._apply_track_condition_mods` from `setup_calculator.py`. -/
def apply_track_condition_mods (condition : TrackCondition) (sp : SDict × String) :
    Option (SDict × String) :=
  match condition with
  | TrackCondition.BUMPY =>
    let profile := sp.2 ++ " | Bump Absorption"
    obind (mulRoundW sp.1 FastBumpF (mkRat 7 10)) fun d =>
    obind (mulRoundW d FastReboundF (mkRat 7 10)) fun d =>
    obind (mulRoundW d FastBumpR (mkRat 7 10)) fun d =>
    obind (mulRoundW d FastReboundR (mkRat 7 10)) fun d =>
    obind (addW d RideHeightF (mkRat 5 1000)) fun d =>
    some (d, profile)
  | TrackCondition.LOOSE =>
    let profile := sp.2 ++ " | Traction Priority"
    obind (addW sp.1 FrontDiffAccel 15) fun d =>
    obind (addW d RearDiffAccel 10) fun d =>
    obind (mulRoundW d SpringRateF (mkRat 9 10)) fun d =>
    obind (mulRoundW d SpringRateR (mkRat 9 10)) fun d =>
    some (d, profile)
  | TrackCondition.ICE =>
    let profile := sp.2 ++ " | Ice Optimization"
    obind (mulRoundW sp.1 SpringRateF (mkRat 8 10)) fun d =>
    obind (mulRoundW d SpringRateR (mkRat 75 100)) fun d =>
    let d := setW d FrontDiffAccel 85
    let d := setW d RearDiffAccel 80
    some (d, profile)
  | TrackCondition.DEEP_GRAVEL =>
    let profile := sp.2 ++ " | Rut Management"
    obind (addW sp.1 RideHeightF (mkRat 10 1000)) fun d =>
    obind (addW d RideHeightR (mkRat 10 1000)) fun d =>
    obind (mulRoundW d FastBumpF (mkRat 6 10)) fun d =>
    obind (mulRoundW d FastReboundF (mkRat 6 10)) fun d =>
    some (d, profile)
  | _ => some sp

open SetupKey in
/-- Embeds `SetupCalculator._apply_weather_mods` from `setup_calculator.py`. -/
def apply_weather_mods (weather : Weather) (sp : SDict × String) :
    Option (SDict × String) :=
  match weather with
  | Weather.DAMP =>
    let profile := sp.2 ++ " | Damp Conditions"
    obind (mulRoundW sp.1 ARBFront (mkRat 8 10)) fun d =>
    obind (mulRoundW d ARBRear (mkRat 8 10)) fun d =>
    obind (addW d BrakeBias (mkRat (-2) 100)) fun d =>
    some (d, profile)
  | Weather.WET =>
    let profile := sp.2 ++ " | Wet Conditions"
    obind (mulRoundW sp.1 SpringRateF (mkRat 85 100)) fun d =>
    obind (mulRoundW d SpringRateR (mkRat 85 100)) fun d =>
    obind (mulRoundW d ARBFront (mkRat 6 10)) fun d =>
    obind (mulRoundW d ARBRear (mkRat 6 10)) fun d =>
    obind (addW d RideHeightF (mkRat 10 1000)) fun d =>
    obind (addW d RideHeightR (mkRat 10 1000)) fun d =>
    obind (addW d BrakeBias (mkRat (-4) 100)) fun d =>
    obind (addW d FrontDiffAccel 10) fun d =>
    obind (addW d RearDiffAccel 10) fun d =>
    some (d, profile)
  | Weather.COLD =>
    let profile := sp.2 ++ " | Cold Conditions"
    obind (mulRoundW sp.1 SpringRateF (mkRat 11 10)) fun d =>
    obind (mulRoundW d SpringRateR (mkRat 11 10)) fun d =>
    some (d, profile)
  | Weather.HOT =>
    let profile := sp.2 ++ " | Hot Conditions"
    obind (mulRoundW sp.1 SpringRateF (mkRat 95 100)) fun d =>
    obind (mulRoundW d SpringRateR (mkRat 95 100)) fun d =>
    some (d, profile)
  | _ => some sp

/-! ### The `FullSetup` result record (dataclasses from `setup_calculator.py`).
Integer-typed Python fields are modelled as `ℚ`; every value the pipeline
stores in them is integral. -/

/-- Embeds `SuspensionSetup` dataclass. -/
structure SuspensionSetup where
  spring_rate_front : ℚ
  spring_rate_rear : ℚ
  ride_height_front : ℚ
  ride_height_rear : ℚ
  camber_front : ℚ
  camber_rear : ℚ
  toe_front : ℚ
  toe_rear : ℚ
  caster : ℚ
  deriving DecidableEq

/-- Embeds `DamperSetup` dataclass. -/
structure DamperSetup where
  slow_bump_front : ℚ
  slow_bump_rear : ℚ
  slow_rebound_front : ℚ
  slow_rebound_rear : ℚ
  fast_bump_front : ℚ
  fast_bump_rear : ℚ
  fast_rebound_front : ℚ
  fast_rebound_rear : ℚ
  deriving DecidableEq

/-- Embeds `DifferentialSetup` dataclass. -/
structure DifferentialSetup where
  front_accel : ℚ
  front_coast : ℚ
  front_preload : ℚ
  rear_accel : ℚ
  rear_coast : ℚ
  rear_preload : ℚ
  deriving DecidableEq

/-- Embeds `BrakeSetup` dataclass. -/
structure BrakeSetup where
  bias : ℚ
  pressure : ℚ
  deriving DecidableEq

/-- Embeds `AntiRollBarSetup` dataclass. -/
structure AntiRollBarSetup where
  front : ℚ
  rear : ℚ
  deriving DecidableEq

/-- Embeds `FullSetup` dataclass. -/
structure FullSetup where
  name : String
  car_class : String
  surface : String
  track_condition : String
  weather : String
  traction : String
  engineering_profile : String
  suspension : SuspensionSetup
  dampers : DamperSetup
  differential : DifferentialSetup
  brakes : BrakeSetup
  arb : AntiRollBarSetup
  deriving DecidableEq

/-- Enum `.value` strings, as used for the `FullSetup` metadata fields. -/
def Surface.val : Surface → String
  | Surface.ASPHALT => "asphalt"
  | Surface.GRAVEL => "gravel"
  | Surface.SNOW => "snow"

/-- Enum `.value` strings for `TrackCondition`. -/
def TrackCondition.val : TrackCondition → String
  | TrackCondition.SMOOTH => "smooth"
  | TrackCondition.BUMPY => "bumpy"
  | TrackCondition.LOOSE => "loose"
  | TrackCondition.MIXED => "mixed"
  | TrackCondition.ICE => "ice"
  | TrackCondition.DEEP_GRAVEL => "deep_gravel"
  | TrackCondition.WET_MUD => "wet_mud"

/-- Enum `.value` strings for `Weather`. -/
def Weather.val : Weather → String
  | Weather.DRY => "dry"
  | Weather.DAMP => "damp"
  | Weather.WET => "wet"
  | Weather.FOG => "fog"
  | Weather.COLD => "cold"
  | Weather.HOT => "hot"

/-- The dictionary after the car-class overrides have been written on top of a
copy of `BASE_SETUP` (the first half of `calculate_setup`). -/
def initial_setup (car_class : CarClass) : SDict :=
  (CAR_CLASS_CONFIGS car_class).overrides.foldl (fun d kv => dset d kv.1 kv.2)
    BASE_SETUP

open SetupKey in
/-- Embeds `SetupCalculator.calculate_setup` from `setup_calculator.py`.  The result
is `none` exactly when some dictionary read inside the stages or the final
record construction would raise a `KeyError` in Python. -/
def calculate_setup (car_class : CarClass) (surface : Surface)
    (track_condition : TrackCondition) (weather : Weather)
    (setup_name : String := "Custom Setup") : Option FullSetup :=
  let cfg := CAR_CLASS_CONFIGS car_class
  let d0 := initial_setup car_class
  obind (apply_surface_mods surface (d0, cfg.philosophy)) fun sp1 =>
  obind (apply_track_condition_mods track_condition sp1) fun sp2 =>
  obind (apply_weather_mods weather sp2) fun sp3 =>
  let d3 := sp3.1
  let p3 := sp3.2
  obind (dget d3 SpringRateF) fun springRateF =>
  obind (dget d3 SpringRateR) fun springRateR =>
  obind (dget d3 RideHeightF) fun rideHeightF =>
  obind (dget d3 RideHeightR) fun rideHeightR =>
  obind (dget d3 FrontCamber) fun frontCamber =>
  obind (dget d3 RearCamber) fun rearCamber =>
  obind (dget d3 FrontToe) fun frontToe =>
  obind (dget d3 RearToe) fun rearToe =>
  obind (dget d3 Caster) fun caster =>
  obind (dget d3 SlowBumpF) fun slowBumpF =>
  obind (dget d3 SlowBumpR) fun slowBumpR =>
  obind (dget d3 SlowReboundF) fun slowReboundF =>
  obind (dget d3 SlowReboundR) fun slowReboundR =>
  obind (dget d3 FastBumpF) fun fastBumpF =>
  obind (dget d3 FastBumpR) fun fastBumpR =>
  obind (dget d3 FastReboundF) fun fastReboundF =>
  obind (dget d3 FastReboundR) fun fastReboundR =>
  obind (dget d3 FrontDiffAccel) fun frontDiffAccel =>
  obind (dget d3 FrontDiffDecel) fun frontDiffDecel =>
  obind (dget d3 FrontDiffPreload) fun frontDiffPreload =>
  obind (dget d3 RearDiffAccel) fun rearDiffAccel =>
  obind (dget d3 RearDiffDecel) fun rearDiffDecel =>
  obind (dget d3 RearDiffPreload) fun rearDiffPreload =>
  obind (dget d3 BrakeBias) fun brakeBias =>
  obind (dget d3 BrakePressure) fun brakePressure =>
  obind (dget d3 ARBFront) fun arbFront =>
  obind (dget d3 ARBRear) fun arbRear =>
  some {
    name := setup_name
    car_class := cfg.name
    surface := surface.val
    track_condition := track_condition.val
    weather := weather.val
    traction := cfg.traction
    engineering_profile := p3
    suspension := {
      spring_rate_front := springRateF
      spring_rate_rear := springRateR
      ride_height_front := rideHeightF
      ride_height_rear := rideHeightR
      camber_front := frontCamber
      camber_rear := rearCamber
      toe_front := frontToe
      toe_rear := rearToe
      caster := caster }
    dampers := {
      slow_bump_front := slowBumpF
      slow_bump_rear := slowBumpR
      slow_rebound_front := slowReboundF
      slow_rebound_rear := slowReboundR
      fast_bump_front := fastBumpF
      fast_bump_rear := fastBumpR
      fast_rebound_front := fastReboundF
      fast_rebound_rear := fastReboundR }
    differential := {
      front_accel := frontDiffAccel
      front_coast := frontDiffDecel
      front_preload := frontDiffPreload
      rear_accel := rearDiffAccel
      rear_coast := rearDiffDecel
      rear_preload := rearDiffPreload }
    brakes := {
      bias := brakeBias
      pressure := brakePressure }
    arb := {
      front := arbFront
      rear := arbRear } }

/-! ### `dirt_converter.py` — ranges, tabular provider, comparison engine -/

/-- Embeds `ACRRanges` dataclass: min/max bounds for the Lancia Delta HF Integrale
Evo.  Integer-typed Python fields are modelled as `ℚ` alongside the float
ones so that all bounds live in one ordered field. -/
structure ACRRanges where
  spring_front_min : ℚ := 40000
  spring_front_max : ℚ := 75000
  spring_rear_min : ℚ := 30000
  spring_rear_max : ℚ := 55000
  front_slow_bump_min : ℚ := 3500
  front_slow_bump_max : ℚ := 6500
  front_slow_rebound_min : ℚ := 5500
  front_slow_rebound_max : ℚ := 12500
  front_fast_bump_min : ℚ := 2000
  front_fast_bump_max : ℚ := 4500
  front_fast_rebound_min : ℚ := 3000
  front_fast_rebound_max : ℚ := 6000
  rear_slow_bump_min : ℚ := 3000
  rear_slow_bump_max : ℚ := 6000
  rear_slow_rebound_min : ℚ := 4500
  rear_slow_rebound_max : ℚ := 9000
  rear_fast_bump_min : ℚ := 1500
  rear_fast_bump_max : ℚ := 4000
  rear_fast_rebound_min : ℚ := 3000
  rear_fast_rebound_max : ℚ := 6000
  arb_front_min : ℚ := 12000
  arb_front_max : ℚ := 23000
  arb_rear_min : ℚ := 4000
  arb_rear_max : ℚ := 22000
  ride_height_min : ℚ := 0
  ride_height_max : ℚ := 200
  lsd_preload_rear_min : ℚ := 0
  lsd_preload_rear_max : ℚ := 250
  camber_front_min : ℚ := mkRat (-35) 10
  camber_front_max : ℚ := 1
  camber_rear_min : ℚ := mkRat (-37) 10
  camber_rear_max : ℚ := 1
  toe_min : ℚ := mkRat (-100) 10000
  toe_max : ℚ := mkRat 100 10000
  brake_bias_min : ℚ := mkRat 350 1000
  brake_bias_max : ℚ := mkRat 800 1000

/-- Embeds `self.ranges = ACRRanges()` — the single instance the converter and the
GUI's `ACR_RANGES` both construct (all fields at their defaults). -/
def the_ranges : ACRRanges := {}

/-- Embeds `LANCIA_DELTA_DEFAULTS` dict from `dirt_converter.py`. -/
structure LanciaDeltaDefaults where
  spring_front : ℚ := 40000
  spring_rear : ℚ := 40000
  arb_front : ℚ := 11500
  arb_rear : ℚ := 13500
  ride_height_front : ℚ := 130
  ride_height_rear : ℚ := 100
  front_slow_bump : ℚ := 4250
  front_slow_rebound : ℚ := 9000
  front_fast_bump : ℚ := 2500
  front_fast_rebound : ℚ := 5000
  rear_slow_bump : ℚ := 3750
  rear_slow_rebound : ℚ := 6750
  rear_fast_bump : ℚ := 2500
  rear_fast_rebound : ℚ := 4500
  camber_front : ℚ := mkRat (-24) 10
  camber_rear : ℚ := mkRat (-26) 10
  toe_front : ℚ := mkRat 6 1000
  toe_rear : ℚ := 0
  brake_bias : ℚ := 67
  front_lsd_ramp : String := "60_75"
  front_lsd_preload : ℚ := 60
  rear_lsd_ramp : String := "45_70"
  rear_lsd_preload : ℚ := 90

/-- The `LANCIA_DELTA_DEFAULTS` constant. -/
def LANCIA_DELTA_DEFAULTS : LanciaDeltaDefaults := {}

/-- Embeds `DIRT_GRAVEL_TENDENCIES` dict from `dirt_converter.py`. -/
structure DirtGravelTendencies where
  spring_front_modifier : ℚ := mkRat 150 100
  spring_rear_modifier : ℚ := mkRat 130 100
  arb_front_modifier : ℚ := mkRat 104 100
  arb_rear_modifier : ℚ := mkRat 50 100
  ride_height_front : ℚ := 100
  ride_height_rear : ℚ := 85
  front_slow_bump_modifier : ℚ := mkRat 90 100
  front_slow_rebound_modifier : ℚ := mkRat 110 100
  rear_slow_bump_modifier : ℚ := mkRat 80 100
  rear_slow_rebound_modifier : ℚ := mkRat 115 100
  front_fast_bump_modifier : ℚ := mkRat 92 100
  front_fast_rebound_modifier : ℚ := mkRat 108 100
  rear_fast_bump_modifier : ℚ := mkRat 85 100
  rear_fast_rebound_modifier : ℚ := mkRat 110 100
  camber_front : ℚ := mkRat (-150) 100
  camber_rear : ℚ := mkRat (-40) 100
  toe_front : ℚ := 0
  toe_rear : ℚ := mkRat (-20) 100
  brake_bias : ℚ := 66
  front_lsd_ramp : String := "55_85"
  front_lsd_preload : ℚ := 40
  rear_lsd_ramp : String := "55_75"
  rear_lsd_preload : ℚ := 70
  front_bias : ℚ := 30
  centre_diff_ratio : String := "50//12"
  gear_set : String := "Set 2 (Balanced)"

/-- The `DIRT_GRAVEL_TENDENCIES` constant. -/
def DIRT_GRAVEL_TENDENCIES : DirtGravelTendencies := {}

/-- Embeds `DirtConverter.clamp`. -/
def clamp (value min_val max_val : ℚ) : ℚ :=
  max min_val (min max_val value)

/-- Embeds `DirtConverter.calculate_value`: `int(round(clamp(base * modifier)))`.
The Python function returns an int; we keep the integral value in `ℚ`. -/
def calculate_value (base modifier min_val max_val : ℚ) : ℚ :=
  mkRat (pyRound (clamp (qmul base modifier) min_val max_val)) 1

/-- Python `round(x, 1)` — round to one decimal, half to even. -/
def round1 (q : ℚ) : ℚ :=
  mkRat (pyRound (qmul q 10)) 10

/-- Value of a nonempty digit run (used by the numeric-string parsers). -/
def digitsVal (cs : List Char) : ℕ :=
  cs.foldl (fun a c => a * 10 + (c.toNat - 48)) 0

/-- Python `int(s)` on a plain literal: optional sign followed by a nonempty
digit run; anything else raises `ValueError`, modelled as `none`. -/
def pyInt? (s : String) : Option ℤ :=
  match s.toList with
  | [] => none
  | '+' :: t =>
    if !t.isEmpty && t.all Char.isDigit then some (digitsVal t) else none
  | '-' :: t =>
    if !t.isEmpty && t.all Char.isDigit then some (-(digitsVal t : ℤ)) else none
  | l =>
    if l.all Char.isDigit then some (digitsVal l) else none

/-- Whether `pat` is an initial segment of `cs`; on success returns the
remainder.  Helper for the evaluable string functions below. -/
def dropSeg? : List Char → List Char → Option (List Char)
  | [], rest => some rest
  | _ :: _, [] => none
  | p :: ps, c :: cs => if p == c then dropSeg? ps cs else none

/-- Left-to-right, non-overlapping replacement on character lists with
explicit fuel (one unit per step, so `length + 1` always suffices for a
nonempty pattern).  Implements Python `str.replace`. -/
def replaceFuel : Nat → List Char → List Char → List Char → List Char
  | 0, cs, _, _ => cs
  | _ + 1, [], _, _ => []
  | n + 1, c :: rest, pat, sub =>
    match dropSeg? pat (c :: rest) with
    | some after => sub ++ replaceFuel n after pat sub
    | none => c :: replaceFuel n rest pat sub

/-- Python `s.replace(pat, sub)` (evaluable spelling of `String.replace`;
the sources never call it with an empty pattern). -/
def strReplace (s pat sub : String) : String :=
  if pat = "" then s
  else String.mk (replaceFuel (s.data.length + 1) s.data pat.data sub.data)

/-- Python `s.strip()` (evaluable spelling of `String.trim`). -/
def strTrim (s : String) : String :=
  String.mk
    (((s.data.dropWhile Char.isWhitespace).reverse.dropWhile
      Char.isWhitespace).reverse)

/-- Python `float(s)` on a finite decimal literal: optional surrounding
whitespace and sign, an integer and/or fractional digit run, and an optional
exponent.  Inputs outside this grammar are modelled as `none` (Python's
`ValueError`); the special values `inf`/`nan`, which have no rational
counterpart, are outside the model. -/
def pyFloat? (s : String) : Option ℚ :=
  let cs := (strTrim s).data
  let signAndRest : ℤ × List Char :=
    match cs with
    | '+' :: t => (1, t)
    | '-' :: t => (-1, t)
    | t => (1, t)
  let sign := signAndRest.1
  let cs1 := signAndRest.2
  let ip := cs1.takeWhile Char.isDigit
  let rest1 := cs1.dropWhile Char.isDigit
  let fpAndRest : List Char × List Char :=
    match rest1 with
    | '.' :: t => (t.takeWhile Char.isDigit, t.dropWhile Char.isDigit)
    | t => ([], t)
  let fp := fpAndRest.1
  let rest2 := fpAndRest.2
  if ip.isEmpty && fp.isEmpty then none
  else
    let mantNum : ℤ := sign * (digitsVal ip * 10 ^ fp.length + digitsVal fp)
    let mantDen : ℕ := 10 ^ fp.length
    match rest2 with
    | [] => some (mkRat mantNum mantDen)
    | c :: t =>
      if c == 'e' || c == 'E' then
        let esignAndRest : Bool × List Char :=
          match t with
          | '+' :: t2 => (false, t2)
          | '-' :: t2 => (true, t2)
          | t2 => (false, t2)
        let eneg := esignAndRest.1
        let ed := esignAndRest.2.takeWhile Char.isDigit
        let rest3 := esignAndRest.2.dropWhile Char.isDigit
        if ed.isEmpty || !rest3.isEmpty then none
        else if eneg then some (mkRat mantNum (mantDen * 10 ^ digitsVal ed))
        else some (mkRat (mantNum * 10 ^ digitsVal ed) mantDen)
      else none

/-- Embeds `DirtConverter.parse_ramp_angle`: split `"A_B"` on `_` and parse the two
integers; `none` models the `IndexError`/`ValueError` the Python code would
raise on a malformed compound string. -/
def parse_ramp_angle (ramp_str : String) : Option (ℤ × ℤ) :=
  match (ramp_str.data.splitOn '_').map String.mk with
  | a :: b :: _ =>
    obind (pyInt? a) fun x =>
    obind (pyInt? b) fun y =>
    some (x, y)
  | _ => none

/-- Embeds `RallyWorksSetup` dataclass (integer fields modelled as `ℚ`). -/
structure RallyWorksSetup where
  car : String
  surface : String
  source : String
  spring_front : ℚ
  spring_rear : ℚ
  arb_front : ℚ
  arb_rear : ℚ
  ride_height_front : ℚ
  ride_height_rear : ℚ
  front_slow_bump : ℚ
  front_slow_rebound : ℚ
  front_fast_bump : ℚ
  front_fast_rebound : ℚ
  rear_slow_bump : ℚ
  rear_slow_rebound : ℚ
  rear_fast_bump : ℚ
  rear_fast_rebound : ℚ
  camber_front : ℚ
  camber_rear : ℚ
  toe_front : ℚ
  toe_rear : ℚ
  brake_bias : ℚ
  front_lsd_ramp_accel : ℚ
  front_lsd_ramp_decel : ℚ
  front_lsd_preload : ℚ
  rear_lsd_ramp_accel : ℚ
  rear_lsd_ramp_decel : ℚ
  rear_lsd_preload : ℚ
  front_bias : ℚ
  centre_diff_ratio : String
  gear_set_recommendation : String
  deriving DecidableEq

/-- Embeds `DirtConverter.generate_rallyworks_setup`.  `none` corresponds to an
uncaught exception from `parse_ramp_angle`; for the constant tendency table
the parses succeed and the result is `some`. -/
def generate_rallyworks_setup (car surface : String) : Option RallyWorksSetup :=
  let defaults := LANCIA_DELTA_DEFAULTS
  let tendencies := DIRT_GRAVEL_TENDENCIES
  let r := the_ranges
  let spring_front := calculate_value defaults.spring_front
    tendencies.spring_front_modifier r.spring_front_min r.spring_front_max
  let spring_rear := calculate_value defaults.spring_rear
    tendencies.spring_rear_modifier r.spring_rear_min r.spring_rear_max
  let arb_front := calculate_value defaults.arb_front
    tendencies.arb_front_modifier r.arb_front_min r.arb_front_max
  let arb_rear := calculate_value defaults.arb_rear
    tendencies.arb_rear_modifier r.arb_rear_min r.arb_rear_max
  let ride_height_front := clamp tendencies.ride_height_front
    r.ride_height_min r.ride_height_max
  let ride_height_rear := clamp tendencies.ride_height_rear
    r.ride_height_min r.ride_height_max
  let front_slow_bump := calculate_value defaults.front_slow_bump
    tendencies.front_slow_bump_modifier r.front_slow_bump_min r.front_slow_bump_max
  let front_slow_rebound := calculate_value defaults.front_slow_rebound
    tendencies.front_slow_rebound_modifier r.front_slow_rebound_min
    r.front_slow_rebound_max
  let front_fast_bump := calculate_value defaults.front_fast_bump
    tendencies.front_fast_bump_modifier r.front_fast_bump_min r.front_fast_bump_max
  let front_fast_rebound := calculate_value defaults.front_fast_rebound
    tendencies.front_fast_rebound_modifier r.front_fast_rebound_min
    r.front_fast_rebound_max
  let rear_slow_bump := calculate_value defaults.rear_slow_bump
    tendencies.rear_slow_bump_modifier r.rear_slow_bump_min r.rear_slow_bump_max
  let rear_slow_rebound := calculate_value defaults.rear_slow_rebound
    tendencies.rear_slow_rebound_modifier r.rear_slow_rebound_min
    r.rear_slow_rebound_max
  let rear_fast_bump := calculate_value defaults.rear_fast_bump
    tendencies.rear_fast_bump_modifier r.rear_fast_bump_min r.rear_fast_bump_max
  let rear_fast_rebound := calculate_value defaults.rear_fast_rebound
    tendencies.rear_fast_rebound_modifier r.rear_fast_rebound_min
    r.rear_fast_rebound_max
  let camber_front := clamp tendencies.camber_front
    r.camber_front_min r.camber_front_max
  let camber_rear := clamp tendencies.camber_rear
    r.camber_rear_min r.camber_rear_max
  let toe_front := tendencies.toe_front
  let toe_rear := tendencies.toe_rear
  let brake_bias := clamp tendencies.brake_bias
    (qmul r.brake_bias_min 100) (qmul r.brake_bias_max 100)
  obind (parse_ramp_angle tendencies.front_lsd_ramp) fun front_ramp =>
  obind (parse_ramp_angle tendencies.rear_lsd_ramp) fun rear_ramp =>
  let front_lsd_preload := clamp tendencies.front_lsd_preload 0 250
  let rear_lsd_preload := clamp tendencies.rear_lsd_preload
    r.lsd_preload_rear_min r.lsd_preload_rear_max
  some {
    car := car
    surface := surface
    source := "DiRT Rally 2.0 + Rally Engineering"
    spring_front := spring_front
    spring_rear := spring_rear
    arb_front := arb_front
    arb_rear := arb_rear
    ride_height_front := round1 ride_height_front
    ride_height_rear := round1 ride_height_rear
    front_slow_bump := front_slow_bump
    front_slow_rebound := front_slow_rebound
    front_fast_bump := front_fast_bump
    front_fast_rebound := front_fast_rebound
    rear_slow_bump := rear_slow_bump
    rear_slow_rebound := rear_slow_rebound
    rear_fast_bump := rear_fast_bump
    rear_fast_rebound := rear_fast_rebound
    camber_front := camber_front
    camber_rear := camber_rear
    toe_front := toe_front
    toe_rear := toe_rear
    brake_bias := brake_bias
    front_lsd_ramp_accel := mkRat front_ramp.1 1
    front_lsd_ramp_decel := mkRat front_ramp.2 1
    front_lsd_preload := front_lsd_preload
    rear_lsd_ramp_accel := mkRat rear_ramp.1 1
    rear_lsd_ramp_decel := mkRat rear_ramp.2 1
    rear_lsd_preload := rear_lsd_preload
    front_bias := tendencies.front_bias
    centre_diff_ratio := tendencies.centre_diff_ratio
    gear_set_recommendation := tendencies.gear_set }

/-- Embeds `DirtConverter.get_rallyworks_setup`: exact key match on (car, surface). -/
def get_rallyworks_setup (car surface : String) : Option RallyWorksSetup :=
  if car = "Lancia Delta HF Integrale Evo" ∧ surface = "gravel" then
    generate_rallyworks_setup car surface
  else none

/-- Embeds `DirtConverter.has_rallyworks_setup`. -/
def has_rallyworks_setup (car surface : String) : Bool :=
  decide (car = "Lancia Delta HF Integrale Evo" ∧ surface = "gravel")

/-- A Python value that is either a number or a string (the duck-typed
inputs of the comparison engine and the editable-setup loader). -/
inductive PyVal where
  | num (q : ℚ)
  | str (s : String)
  deriving DecidableEq

/-- Embeds `DirtConverter.compare_values`: returns `(direction_symbol, color_code)`.
Any string input short-circuits to the neutral result; otherwise the fixed
absolute tolerance `0.01` on `diff = rw_value - acr_value` decides. -/
def compare_values (acr_value rw_value : PyVal) : String × String :=
  match acr_value, rw_value with
  | PyVal.num a, PyVal.num r =>
    let diff := qsub r a
    if qabs diff < mkRat 1 100 then ("=", "#888888")
    else if 0 < diff then ("↑", "#5DADE2")
    else ("↓", "#E74C3C")
  | _, _ => ("=", "#888888")

/-! ### `gui.py` — editable setup store and presentation-side comparison -/

/-- Embeds `SetupCalculatorGUI.extract_number`: strip the known unit tokens (in the
source's replacement order) and parse the remainder as a float. -/
def extract_number (value : PyVal) : Option ℚ :=
  match value with
  | PyVal.num q => some q
  | PyVal.str s =>
    let c1 := strReplace s "N/m" ""
    let c2 := strReplace c1 "Nm" ""
    let c3 := strReplace c2 "mm" ""
    let c4 := strReplace c3 "°" ""
    let c5 := strReplace c4 "%" ""
    let c6 := strReplace c5 " " ""
    let c7 := strReplace c6 "front" ""
    let cleaned := strReplace c7 "Ns/m" ""
    pyFloat? cleaned

/-- Embeds `SetupCalculatorGUI.get_comparison_color`: classify by the numeric
difference when both sides yield a number, else the neutral arrow.  The
colors are the GUI's `rw_increase_color` / `rw_decrease_color` /
`rw_same_color` constants. -/
def get_comparison_color (acr_value rw_value : PyVal) : String × String :=
  match extract_number acr_value, extract_number rw_value with
  | some acr_num, some rw_num =>
    let diff := qsub rw_num acr_num
    if qabs diff < mkRat 1 100 then ("=", "#888888")
    else if 0 < diff then ("↑", "#5DADE2")
    else ("↓", "#E74C3C")
  | _, _ => ("→", "#888888")

/-- Cleaning pass of `EditableSetup._parse_value`: remove the parameter's
unit and the known unit tokens (in the source's order), then strip. -/
def parseValueClean (value_str unit : String) : String :=
  let c1 := strReplace value_str unit ""
  let c2 := strReplace c1 "N/m" ""
  let c3 := strReplace c2 "Ns/m" ""
  let c4 := strReplace c3 "mm" ""
  let c5 := strReplace c4 "PSI" ""
  let c6 := strReplace c5 "psi" ""
  let c7 := strReplace c6 "Nm" ""
  let c8 := strReplace c7 "front" ""
  let c9 := strReplace c8 "°" ""
  let c10 := strReplace c9 "%" ""
  strTrim c10

/-- Embeds `EditableSetup._parse_value`: numbers pass through; strings are cleaned
and parsed, and a failed parse silently becomes `0.0`. -/
def parse_value (value : PyVal) (unit : String) : ℚ :=
  match value with
  | PyVal.num q => q
  | PyVal.str s =>
    match pyFloat? (parseValueClean s unit) with
    | some q => q
    | none => 0

/-- Embeds `EditableSetup` from `gui.py`: the committed values dictionary plus the
surface tag. -/
structure EditableSetup where
  values : List (String × ℚ)
  surface : String

/-- The `ranges` dict inside `EditableSetup._validate` (per-key clamp
bounds; keys absent from this table pass through unclamped). -/
def validate_ranges : List (String × (ℚ × ℚ)) := [
  ("spring_front", (the_ranges.spring_front_min, the_ranges.spring_front_max)),
  ("spring_rear", (the_ranges.spring_rear_min, the_ranges.spring_rear_max)),
  ("arb_front", (the_ranges.arb_front_min, the_ranges.arb_front_max)),
  ("arb_rear", (the_ranges.arb_rear_min, the_ranges.arb_rear_max)),
  ("ride_height_front", (the_ranges.ride_height_min, the_ranges.ride_height_max)),
  ("ride_height_rear", (the_ranges.ride_height_min, the_ranges.ride_height_max)),
  ("front_slow_bump", (the_ranges.front_slow_bump_min, the_ranges.front_slow_bump_max)),
  ("front_slow_rebound", (the_ranges.front_slow_rebound_min, the_ranges.front_slow_rebound_max)),
  ("front_fast_bump", (the_ranges.front_fast_bump_min, the_ranges.front_fast_bump_max)),
  ("front_fast_rebound", (the_ranges.front_fast_rebound_min, the_ranges.front_fast_rebound_max)),
  ("rear_slow_bump", (the_ranges.rear_slow_bump_min, the_ranges.rear_slow_bump_max)),
  ("rear_slow_rebound", (the_ranges.rear_slow_rebound_min, the_ranges.rear_slow_rebound_max)),
  ("rear_fast_bump", (the_ranges.rear_fast_bump_min, the_ranges.rear_fast_bump_max)),
  ("rear_fast_rebound", (the_ranges.rear_fast_rebound_min, the_ranges.rear_fast_rebound_max)),
  ("camber_front", (the_ranges.camber_front_min, the_ranges.camber_front_max)),
  ("camber_rear", (the_ranges.camber_rear_min, the_ranges.camber_rear_max)),
  ("toe_front", (mkRat (-1) 1, 1)),
  ("toe_rear", (mkRat (-1) 1, 1)),
  ("pressure_front", (10, 45)),
  ("pressure_rear", (10, 45)),
  ("brake_bias", (35, 80)),
  ("front_bias", (30, 70)),
  ("front_lsd_preload", (0, 250)),
  ("rear_lsd_preload", (the_ranges.lsd_preload_rear_min, the_ranges.lsd_preload_rear_max))]

/-- Embeds `EditableSetup._validate`: parse the raw input; on failure return the
previously committed value (`self.values.get(key, 0.0)`); on success clamp
to the key's range when the key is in the range table. -/
def EditableSetup.validate (es : EditableSetup) (key : String) (value : String) :
    ℚ :=
  match pyFloat? value with
  | none => dgetD es.values key 0
  | some val =>
    match validate_ranges.find? (fun p => decide (p.1 = key)) with
    | some p => max p.2.1 (min p.2.2 val)
    | none => val

/-- Embeds `EditableSetup.set`: validate, store, and return the stored value. -/
def EditableSetup.set (es : EditableSetup) (key : String) (value : String) :
    EditableSetup × ℚ :=
  let validated := es.validate key value
  ({ es with values := dset es.values key validated }, validated)

/-- Embeds `EditableSetup.get`. -/
def EditableSetup.get (es : EditableSetup) (key : String) : ℚ :=
  dgetD es.values key 0

/-- The baseline object consumed by `EditableSetup._load_from_setup`: one
`Option PyVal` slot per accessed path (`None` models an absent entry, for
which the source substitutes its literal default string). -/
structure Baseline where
  front_arb : Option PyVal := none
  rear_arb : Option PyVal := none
  spring_fl : Option PyVal := none
  spring_rl : Option PyVal := none
  ride_height_fl : Option PyVal := none
  ride_height_rl : Option PyVal := none
  fl_slow_bump : Option PyVal := none
  fl_slow_rebound : Option PyVal := none
  fl_fast_bump : Option PyVal := none
  fl_fast_rebound : Option PyVal := none
  rl_slow_bump : Option PyVal := none
  rl_slow_rebound : Option PyVal := none
  rl_fast_bump : Option PyVal := none
  rl_fast_rebound : Option PyVal := none
  fl_camber : Option PyVal := none
  rl_camber : Option PyVal := none
  fl_toe : Option PyVal := none
  rl_toe : Option PyVal := none
  fl_pressure : Option PyVal := none
  rl_pressure : Option PyVal := none
  brake_bias : Option PyVal := none
  front_bias : Option PyVal := none
  front_lsd_preload : Option PyVal := none
  rear_lsd_preload : Option PyVal := none
  surface : String := "gravel"

/-- Embeds `dict.get(path, default_literal)` over a baseline slot. -/
def pvGetD (o : Option PyVal) (d : String) : PyVal :=
  match o with
  | some v => v
  | none => PyVal.str d

/-- Embeds `EditableSetup._load_from_setup`: the values dictionary built from a
baseline, entry by entry in source order, each through `_parse_value`. -/
def load_from_setup (b : Baseline) : List (String × ℚ) := [
  ("arb_front", parse_value (pvGetD b.front_arb "12000") "N/m"),
  ("arb_rear", parse_value (pvGetD b.rear_arb "4000") "N/m"),
  ("spring_front", parse_value (pvGetD b.spring_fl "40000") "N/m"),
  ("spring_rear", parse_value (pvGetD b.spring_rl "30000") "N/m"),
  ("ride_height_front", parse_value (pvGetD b.ride_height_fl "130") "mm"),
  ("ride_height_rear", parse_value (pvGetD b.ride_height_rl "100") "mm"),
  ("front_slow_bump", parse_value (pvGetD b.fl_slow_bump "4250") "Ns/m"),
  ("front_slow_rebound", parse_value (pvGetD b.fl_slow_rebound "9000") "Ns/m"),
  ("front_fast_bump", parse_value (pvGetD b.fl_fast_bump "2500") "Ns/m"),
  ("front_fast_rebound", parse_value (pvGetD b.fl_fast_rebound "5000") "Ns/m"),
  ("rear_slow_bump", parse_value (pvGetD b.rl_slow_bump "3750") "Ns/m"),
  ("rear_slow_rebound", parse_value (pvGetD b.rl_slow_rebound "6750") "Ns/m"),
  ("rear_fast_bump", parse_value (pvGetD b.rl_fast_bump "2500") "Ns/m"),
  ("rear_fast_rebound", parse_value (pvGetD b.rl_fast_rebound "4500") "Ns/m"),
  ("camber_front", parse_value (pvGetD b.fl_camber "-2.4") "°"),
  ("camber_rear", parse_value (pvGetD b.rl_camber "-2.6") "°"),
  ("toe_front", parse_value (pvGetD b.fl_toe "0.006") "°"),
  ("toe_rear", parse_value (pvGetD b.rl_toe "0.0") "°"),
  ("pressure_front", parse_value (pvGetD b.fl_pressure "32") "PSI"),
  ("pressure_rear", parse_value (pvGetD b.rl_pressure "32") "PSI"),
  ("brake_bias", parse_value (pvGetD b.brake_bias "67% front") "%"),
  ("front_bias", parse_value (pvGetD b.front_bias "47%") "%"),
  ("front_lsd_preload", parse_value (pvGetD b.front_lsd_preload "60") "Nm"),
  ("rear_lsd_preload", parse_value (pvGetD b.rear_lsd_preload "90") "Nm")]

/-- Embeds `EditableSetup.__init__` with a baseline: load every editable value. -/
def EditableSetup.load (b : Baseline) : EditableSetup :=
  { values := load_from_setup b, surface := b.surface }

/-! ### Auxiliary range predicates and selector enumerations -/

/-- Decidable range membership `lo ≤ x ≤ hi`. -/
def inRange (lo x hi : ℚ) : Bool :=
  decide (lo ≤ x) && decide (x ≤ hi)

/-- The `ACRRanges`-bounded output fields of the formula pipeline whose
staged values remain within their bounds for every selector combination:
ride heights, cambers, toes, brake bias and rear differential preload. -/
def inherent_ranges_ok (f : FullSetup) : Bool :=
  inRange the_ranges.ride_height_min f.suspension.ride_height_front
    the_ranges.ride_height_max &&
  inRange the_ranges.ride_height_min f.suspension.ride_height_rear
    the_ranges.ride_height_max &&
  inRange the_ranges.camber_front_min f.suspension.camber_front
    the_ranges.camber_front_max &&
  inRange the_ranges.camber_rear_min f.suspension.camber_rear
    the_ranges.camber_rear_max &&
  inRange the_ranges.toe_min f.suspension.toe_front the_ranges.toe_max &&
  inRange the_ranges.toe_min f.suspension.toe_rear the_ranges.toe_max &&
  inRange the_ranges.brake_bias_min f.brakes.bias the_ranges.brake_bias_max &&
  inRange the_ranges.lsd_preload_rear_min f.differential.rear_preload
    the_ranges.lsd_preload_rear_max

/-- Range membership of every clamped field of a `RallyWorksSetup` (brake
bias against the percent-scaled bounds, exactly as the source clamps it;
the toe fields are deliberately not included — they are copied unclamped). -/
def rw_ranges_ok (g : RallyWorksSetup) : Bool :=
  inRange the_ranges.spring_front_min g.spring_front the_ranges.spring_front_max &&
  inRange the_ranges.spring_rear_min g.spring_rear the_ranges.spring_rear_max &&
  inRange the_ranges.arb_front_min g.arb_front the_ranges.arb_front_max &&
  inRange the_ranges.arb_rear_min g.arb_rear the_ranges.arb_rear_max &&
  inRange the_ranges.ride_height_min g.ride_height_front the_ranges.ride_height_max &&
  inRange the_ranges.ride_height_min g.ride_height_rear the_ranges.ride_height_max &&
  inRange the_ranges.front_slow_bump_min g.front_slow_bump
    the_ranges.front_slow_bump_max &&
  inRange the_ranges.front_slow_rebound_min g.front_slow_rebound
    the_ranges.front_slow_rebound_max &&
  inRange the_ranges.front_fast_bump_min g.front_fast_bump
    the_ranges.front_fast_bump_max &&
  inRange the_ranges.front_fast_rebound_min g.front_fast_rebound
    the_ranges.front_fast_rebound_max &&
  inRange the_ranges.rear_slow_bump_min g.rear_slow_bump
    the_ranges.rear_slow_bump_max &&
  inRange the_ranges.rear_slow_rebound_min g.rear_slow_rebound
    the_ranges.rear_slow_rebound_max &&
  inRange the_ranges.rear_fast_bump_min g.rear_fast_bump
    the_ranges.rear_fast_bump_max &&
  inRange the_ranges.rear_fast_rebound_min g.rear_fast_rebound
    the_ranges.rear_fast_rebound_max &&
  inRange the_ranges.camber_front_min g.camber_front the_ranges.camber_front_max &&
  inRange the_ranges.camber_rear_min g.camber_rear the_ranges.camber_rear_max &&
  inRange (qmul the_ranges.brake_bias_min 100) g.brake_bias
    (qmul the_ranges.brake_bias_max 100) &&
  inRange 0 g.front_lsd_preload 250 &&
  inRange the_ranges.lsd_preload_rear_min g.rear_lsd_preload
    the_ranges.lsd_preload_rear_max

/-- All members of `CarClass`, in declaration order. -/
def allCarClasses : List CarClass := [CarClass.GROUP_A_4WD, CarClass.WRC,
  CarClass.R5_RALLY2, CarClass.GROUP_B_4WD, CarClass.GROUP_B_RWD,
  CarClass.RALLY4_RWD, CarClass.FWD_KITCAR, CarClass.RWD_HISTORIC,
  CarClass.RALLY_GT, CarClass.CROSSKART, CarClass.GROUP_S]

/-- All members of `Surface`. -/
def allSurfaces : List Surface := [Surface.ASPHALT, Surface.GRAVEL, Surface.SNOW]

/-- All members of `TrackCondition`. -/
def allTrackConditions : List TrackCondition := [TrackCondition.SMOOTH,
  TrackCondition.BUMPY, TrackCondition.LOOSE, TrackCondition.MIXED,
  TrackCondition.ICE, TrackCondition.DEEP_GRAVEL, TrackCondition.WET_MUD]

/-- All members of `Weather`. -/
def allWeathers : List Weather := [Weather.DRY, Weather.DAMP, Weather.WET,
  Weather.FOG, Weather.COLD, Weather.HOT]

/-- Exhaustive boolean check of one car class: for every surface, track
condition and weather, the pipeline returns a `FullSetup` (`isSome`) whose
`inherent_ranges_ok` fields are within bounds. -/
def class_combos_ok (c : CarClass) : Bool :=
  allSurfaces.all fun s =>
    allTrackConditions.all fun t => allWeathers.all fun w =>
      ((calculate_setup c s t w).map inherent_ranges_ok == some true)

/-- The same check over every selector combination. -/
def all_combos_ok : Bool :=
  allCarClasses.all class_combos_ok

/-! ### Bridge lemmas

The evaluable arithmetic (`qmul`, `qsub`, `qabs`, `mkRat`) agrees with the
ordinary field operations on `ℚ`. -/

theorem qmul_eq (a b : ℚ) : qmul a b = a * b := by
  rw [qmul, Rat.mkRat_eq_div]
  have hnum : ∀ r : ℚ, (r.num : ℚ) = r * r.den := fun r =>
    (div_eq_iff (Nat.cast_ne_zero.mpr r.den_nz)).mp (Rat.num_div_den r)
  have ha : (a.den : ℚ) ≠ 0 := Nat.cast_ne_zero.mpr a.den_nz
  have hb : (b.den : ℚ) ≠ 0 := Nat.cast_ne_zero.mpr b.den_nz
  push_cast
  rw [div_eq_iff (mul_ne_zero ha hb), hnum a, hnum b]
  ring

theorem qsub_eq (a b : ℚ) : qsub a b = a - b := by
  rw [qsub, Rat.mkRat_eq_div]
  have ha : (a.den : ℚ) ≠ 0 := Nat.cast_ne_zero.mpr a.den_nz
  have hb : (b.den : ℚ) ≠ 0 := Nat.cast_ne_zero.mpr b.den_nz
  have hnum : ∀ r : ℚ, (r.num : ℚ) = r * r.den := fun r =>
    (div_eq_iff (Nat.cast_ne_zero.mpr r.den_nz)).mp (Rat.num_div_den r)
  push_cast
  rw [div_eq_iff (mul_ne_zero ha hb), hnum a, hnum b]
  ring

theorem qabs_eq (a : ℚ) : qabs a = |a| := by
  rw [qabs]
  by_cases h : a < 0
  · rw [if_pos h, abs_of_neg h, Rat.mkRat_eq_div]
    push_cast
    rw [neg_div, Rat.num_div_den]
  · rw [if_neg h, abs_of_nonneg (le_of_not_lt h)]

theorem mkRat_hundredth : (mkRat 1 100 : ℚ) = 1 / 100 := by
  rw [Rat.mkRat_eq_div]
  norm_num

/-! ### Dictionary lemmas -/

theorem dget_dset_self {α : Type} [DecidableEq α] (d : List (α × ℚ)) (k : α)
    (v : ℚ) : dget (dset d k v) k = some v := by
  induction d with
  | nil => simp [dset, dget, List.find?]
  | cons p t ih =>
    by_cases hk : p.1 = k
    · simp [dset, hk, dget, List.find?]
    · simpa [dset, hk, dget, List.find?] using ih

/-! ### Enumeration lemmas -/

theorem mem_allCarClasses (c : CarClass) : c ∈ allCarClasses := by
  cases c <;> simp [allCarClasses]

theorem mem_allSurfaces (s : Surface) : s ∈ allSurfaces := by
  cases s <;> simp [allSurfaces]

theorem mem_allTrackConditions (t : TrackCondition) : t ∈ allTrackConditions := by
  cases t <;> simp [allTrackConditions]

theorem mem_allWeathers (w : Weather) : w ∈ allWeathers := by
  cases w <;> simp [allWeathers]

set_option maxHeartbeats 100000000 in
theorem class_ok_GROUP_A_4WD : class_combos_ok CarClass.GROUP_A_4WD = true := by
  decide

set_option maxHeartbeats 100000000 in
theorem class_ok_WRC : class_combos_ok CarClass.WRC = true := by
  decide

set_option maxHeartbeats 100000000 in
theorem class_ok_R5_RALLY2 : class_combos_ok CarClass.R5_RALLY2 = true := by
  decide

set_option maxHeartbeats 100000000 in
theorem class_ok_GROUP_B_4WD : class_combos_ok CarClass.GROUP_B_4WD = true := by
  decide

set_option maxHeartbeats 100000000 in
theorem class_ok_GROUP_B_RWD : class_combos_ok CarClass.GROUP_B_RWD = true := by
  decide

set_option maxHeartbeats 100000000 in
theorem class_ok_RALLY4_RWD : class_combos_ok CarClass.RALLY4_RWD = true := by
  decide

set_option maxHeartbeats 100000000 in
theorem class_ok_FWD_KITCAR : class_combos_ok CarClass.FWD_KITCAR = true := by
  decide

set_option maxHeartbeats 100000000 in
theorem class_ok_RWD_HISTORIC : class_combos_ok CarClass.RWD_HISTORIC = true := by
  decide

set_option maxHeartbeats 100000000 in
theorem class_ok_RALLY_GT : class_combos_ok CarClass.RALLY_GT = true := by
  decide

set_option maxHeartbeats 100000000 in
theorem class_ok_CROSSKART : class_combos_ok CarClass.CROSSKART = true := by
  decide

set_option maxHeartbeats 100000000 in
theorem class_ok_GROUP_S : class_combos_ok CarClass.GROUP_S = true := by
  decide

theorem all_combos_ok_eq : all_combos_ok = true := by
  rw [all_combos_ok, allCarClasses]
  simp [List.all_cons, List.all_nil, class_ok_GROUP_A_4WD, class_ok_WRC,
    class_ok_R5_RALLY2, class_ok_GROUP_B_4WD, class_ok_GROUP_B_RWD,
    class_ok_RALLY4_RWD, class_ok_FWD_KITCAR, class_ok_RWD_HISTORIC,
    class_ok_RALLY_GT, class_ok_CROSSKART, class_ok_GROUP_S]

theorem pipeline_ranges_eval (c : CarClass) (s : Surface) (t : TrackCondition)
    (w : Weather) :
    (calculate_setup c s t w).map inherent_ranges_ok = some true := by
  have h := all_combos_ok_eq
  rw [all_combos_ok] at h
  have h1 := (List.all_eq_true.mp h) c (mem_allCarClasses c)
  rw [class_combos_ok] at h1
  have h2 := (List.all_eq_true.mp h1) s (mem_allSurfaces s)
  have h3 := (List.all_eq_true.mp h2) t (mem_allTrackConditions t)
  have h4 := (List.all_eq_true.mp h3) w (mem_allWeathers w)
  exact eq_of_beq h4

/-! ### Claim theorems -/

/-- Claim C1, counterexample.  The claim says every `ACRRanges` parameter of
`calculate_setup`'s output is within its `[min, max]` bounds for every
selector combination.  It is false: for Group A 4WD / Gravel / Smooth / Dry
the pipeline outputs front anti-roll bar `18500 × 0.45 = 8325`, below
`arb_front_min = 12000` — `calculate_setup` applies no range clamp at all. -/
theorem claim_C1_counterexample :
    (calculate_setup CarClass.GROUP_A_4WD Surface.GRAVEL TrackCondition.SMOOTH
      Weather.DRY).map (fun f => f.arb.front) = some 8325 ∧
    (8325 : ℚ) < the_ranges.arb_front_min :=
  ⟨by decide, by decide⟩

/-- Claim C1, amended.  The pipeline performs no range clamping, so only the
parameters whose staged values never cross their bounds satisfy the range
invariant: for every selector combination, the ride heights, cambers, toes,
brake bias and rear differential preload of the returned `FullSetup` lie
within their `ACRRanges` bounds (springs, anti-roll bars and dampers can
leave their ranges, as the counterexample shows). -/
theorem claim_C1_amended (c : CarClass) (s : Surface) (t : TrackCondition)
    (w : Weather) :
    (calculate_setup c s t w).map inherent_ranges_ok = some true :=
  pipeline_ranges_eval c s t w

/-- Claim C2: with the default baseline (front spring rate 70000), Group A
4WD (no spring override), Gravel, Smooth, Wet, the surface stage writes
`round(70000 × 0.65) = 45500` and the weather stage then writes
`round(45500 × 0.85) = 38675`, which is exactly the final
`spring_rate_front`; each stage write is rounded. -/
theorem claim_C2 :
    (obind (apply_surface_mods Surface.GRAVEL
        (initial_setup CarClass.GROUP_A_4WD,
          (CAR_CLASS_CONFIGS CarClass.GROUP_A_4WD).philosophy))
      fun sp => dget sp.1 SetupKey.SpringRateF) = some 45500 ∧
    (calculate_setup CarClass.GROUP_A_4WD Surface.GRAVEL TrackCondition.SMOOTH
      Weather.WET).map (fun f => f.suspension.spring_rate_front) =
      some 38675 ∧
    pyRound (qmul 70000 (mkRat 65 100)) = 45500 ∧
    pyRound (qmul 45500 (mkRat 85 100)) = 38675 :=
  ⟨by decide, by decide, by decide, by decide⟩

/-- Claim C3: for every key of an `EditableSetup` holding a committed value,
setting it to a string that does not parse as a number stores the previous
committed value back unchanged and returns that value (and, the model being
a total function, no exception escapes). -/
theorem claim_C3 (es : EditableSetup) (key input : String) (v : ℚ)
    (hv : dget es.values key = some v) (hp : pyFloat? input = none) :
    (es.set key input).2 = v ∧
    dget ((es.set key input).1).values key = some v := by
  have hval : es.validate key input = v := by
    rw [EditableSetup.validate, hp, dgetD, hv]
  constructor
  · show (es.set key input).2 = v
    rw [EditableSetup.set, hval]
  · show dget (dset es.values key (es.validate key input)) key = some v
    rw [hval]
    exact dget_dset_self es.values key v

/-- Witness for C3 at a concrete input: the default-loaded editable setup
holds `spring_front = 40000`; setting it to `"abc"` returns 40000 and
leaves 40000 stored. -/
theorem claim_C3_witness :
    ((EditableSetup.load {}).set "spring_front" "abc").2 = 40000 ∧
    dget (((EditableSetup.load {}).set "spring_front" "abc").1).values
      "spring_front" = some 40000 :=
  claim_C3 (EditableSetup.load {}) "spring_front" "abc" 40000 (by decide)
    (by decide)

/-- Claim C4: the comparison engine classifies with the fixed absolute
tolerance `0.01` on `diff = suggested − current`: `compare(100, 100.005)`
is unchanged (`"="`), `compare(100, 100.02)` is an increase (`"↑"`),
`compare(100, 99.98)` is a decrease (`"↓"`), and in general the numeric
branch follows exactly the `|diff| < 0.01` / `diff > 0` rule. -/
theorem claim_C4 :
    compare_values (PyVal.num 100) (PyVal.num (mkRat 100005 1000)) =
      ("=", "#888888") ∧
    compare_values (PyVal.num 100) (PyVal.num (mkRat 10002 100)) =
      ("↑", "#5DADE2") ∧
    compare_values (PyVal.num 100) (PyVal.num (mkRat 9998 100)) =
      ("↓", "#E74C3C") ∧
    ∀ a r : ℚ, compare_values (PyVal.num a) (PyVal.num r) =
      (if |r - a| < 1 / 100 then ("=", "#888888")
       else if 0 < r - a then ("↑", "#5DADE2")
       else ("↓", "#E74C3C")) := by
  refine ⟨by decide, by decide, by decide, fun a r => ?_⟩
  show (if qabs (qsub r a) < mkRat 1 100 then ("=", "#888888")
      else if 0 < qsub r a then ("↑", "#5DADE2")
      else ("↓", "#E74C3C")) = _
  rw [qsub_eq, qabs_eq, mkRat_hundredth]

/-- Claim C5: for Group A 4WD / Asphalt / Smooth / Dry no stage override
fires, and the output equals the unmodified baseline on the cited fields:
`spring_rate_front = 70000`, front anti-roll bar `18500`, front
differential accel `60`. -/
theorem claim_C5 :
    (calculate_setup CarClass.GROUP_A_4WD Surface.ASPHALT TrackCondition.SMOOTH
      Weather.DRY).map
      (fun f => (f.suspension.spring_rate_front, f.arb.front,
        f.differential.front_accel)) = some (70000, 18500, 60) := by
  decide

/-- Claim C6: the GUI comparison strips unit tokens (`"67% front"` yields
67, `"4250 Ns/m"` yields 4250); when both sides extract, it classifies
exactly as the comparison engine does on the extracted numbers; and it
yields the neutral arrow precisely when extraction fails on either side. -/
theorem claim_C6 :
    extract_number (PyVal.str "67% front") = some 67 ∧
    extract_number (PyVal.str "4250 Ns/m") = some 4250 ∧
    (∀ v w a r, extract_number v = some a → extract_number w = some r →
      get_comparison_color v w = compare_values (PyVal.num a) (PyVal.num r)) ∧
    (∀ v w, extract_number v = none ∨ extract_number w = none →
      get_comparison_color v w = ("→", "#888888")) := by
  refine ⟨by decide, by decide, ?_, ?_⟩
  · intro v w a r ha hr
    rw [get_comparison_color, ha, hr, compare_values]
  · intro v w h
    rcases h with h | h
    · rw [get_comparison_color, h]
    · rw [get_comparison_color, h]
      cases extract_number v <;> rfl

/-- Witness for C6 at concrete inputs: two unit-suffixed strings classify
by their numeric difference, and a non-numeric side is neutral. -/
theorem claim_C6_witness :
    get_comparison_color (PyVal.str "67% front") (PyVal.str "4250 Ns/m") =
      ("↑", "#5DADE2") ∧
    get_comparison_color (PyVal.str "67% front")
      (PyVal.str "Set 2 (Balanced)") = ("→", "#888888") := by
  constructor
  · have h := claim_C6.2.2.1 (PyVal.str "67% front") (PyVal.str "4250 Ns/m")
      67 4250 (by decide) (by decide)
    rw [h]
    decide
  · exact claim_C6.2.2.2 (PyVal.str "67% front") (PyVal.str "Set 2 (Balanced)")
      (Or.inr (by decide))

/-- Claim C7: for every car class, surface, track condition and weather the
pipeline terminates with a `FullSetup` (`isSome`): every dictionary key it
reads is present after the stages run, so no `KeyError` is possible. -/
theorem claim_C7 (c : CarClass) (s : Surface) (t : TrackCondition)
    (w : Weather) : (calculate_setup c s t w).isSome = true := by
  have h := pipeline_ranges_eval c s t w
  cases hx : calculate_setup c s t w with
  | none => rw [hx] at h; exact absurd h (by simp)
  | some f => rfl

/-- Claim C8: the tabular provider looks up by exact key match on
`(car, surface)`: `get_rallyworks_setup` returns a setup exactly for
`("Lancia Delta HF Integrale Evo", "gravel")` and `None` otherwise, and
`has_rallyworks_setup` agrees with `get_rallyworks_setup` being `some`. -/
theorem claim_C8 (car surface : String) :
    (get_rallyworks_setup car surface).isSome =
      decide (car = "Lancia Delta HF Integrale Evo" ∧ surface = "gravel") ∧
    has_rallyworks_setup car surface =
      (get_rallyworks_setup car surface).isSome := by
  have hgen : (generate_rallyworks_setup car surface).isSome = true := by
    rfl
  constructor
  · rw [get_rallyworks_setup]
    by_cases h : car = "Lancia Delta HF Integrale Evo" ∧ surface = "gravel"
    · rw [if_pos h, hgen, decide_eq_true h]
    · rw [if_neg h]
      simp [h]
  · rw [has_rallyworks_setup, get_rallyworks_setup]
    by_cases h : car = "Lancia Delta HF Integrale Evo" ∧ surface = "gravel"
    · rw [if_pos h, hgen, decide_eq_true h]
    · rw [if_neg h]
      simp [h]

set_option maxRecDepth 6000

/-- Concrete evaluation of the tabular generator: for any `(car, surface)`
the numeric fields are the fixed values computed from the Lancia defaults,
the DiRT tendencies and the `ACRRanges` clamps. -/
theorem generate_rallyworks_eval (car surface : String) :
    generate_rallyworks_setup car surface = some {
      car := car
      surface := surface
      source := "DiRT Rally 2.0 + Rally Engineering"
      spring_front := 60000
      spring_rear := 52000
      arb_front := 12000
      arb_rear := 6750
      ride_height_front := 100
      ride_height_rear := 85
      front_slow_bump := 3825
      front_slow_rebound := 9900
      front_fast_bump := 2300
      front_fast_rebound := 5400
      rear_slow_bump := 3000
      rear_slow_rebound := 7762
      rear_fast_bump := 2125
      rear_fast_rebound := 4950
      camber_front := mkRat (-3) 2
      camber_rear := mkRat (-2) 5
      toe_front := 0
      toe_rear := mkRat (-1) 5
      brake_bias := 66
      front_lsd_ramp_accel := 55
      front_lsd_ramp_decel := 85
      front_lsd_preload := 40
      rear_lsd_ramp_accel := 55
      rear_lsd_ramp_decel := 75
      rear_lsd_preload := 70
      front_bias := 30
      centre_diff_ratio := "50//12"
      gear_set_recommendation := "Set 2 (Balanced)" } := by
  rfl

/-- Claim C9: for every `(car, surface)` input, the generated RallyWorks
setup has all its spring, anti-roll-bar, ride-height, damper, camber,
brake-bias (against the percent-scaled bounds used by the source) and
LSD-preload fields inside the `ACRRanges` bounds, while the toe fields are
copied from the tendency table unclamped — and `toe_rear = -0.2` indeed
violates the toe range. -/
theorem claim_C9 (car surface : String) :
    (generate_rallyworks_setup car surface).map rw_ranges_ok = some true ∧
    (generate_rallyworks_setup car surface).map
      (fun g => (g.toe_front, g.toe_rear)) =
      some (DIRT_GRAVEL_TENDENCIES.toe_front, DIRT_GRAVEL_TENDENCIES.toe_rear) ∧
    DIRT_GRAVEL_TENDENCIES.toe_rear < the_ranges.toe_min := by
  refine ⟨?_, ?_, by decide⟩
  · rw [generate_rallyworks_eval]
    simp only [Option.map, rw_ranges_ok, inRange, the_ranges]
    norm_num [Rat.mkRat_eq_div, qmul_eq]
  · rw [generate_rallyworks_eval]
    rfl

set_option maxHeartbeats 1600000

/-- Claim C10: `_parse_value` is total; a baseline string entry that fails
to parse after unit stripping silently becomes `0.0` — both in isolation
and through `EditableSetup` construction, where a malformed brake-bias
entry loads as 0 without any error. -/
theorem claim_C10 :
    (∀ (s unit : String), pyFloat? (parseValueClean s unit) = none →
      parse_value (PyVal.str s) unit = 0) ∧
    (∀ (b : Baseline) (s : String), b.brake_bias = some (PyVal.str s) →
      pyFloat? (parseValueClean s "%") = none →
      dget (EditableSetup.load b).values "brake_bias" = some 0) := by
  constructor
  · intro s unit h
    simp only [parse_value, h]
  · intro b s hb h
    show dget (load_from_setup b) "brake_bias" = some 0
    have hpv : parse_value (pvGetD b.brake_bias "67% front") "%" = 0 := by
      rw [hb]
      simp only [pvGetD, parse_value, h]
    rw [load_from_setup, dget]
    simp [List.find?, hpv]

/-- Witness for C10 at concrete inputs: a textual gear-set value parses to
0, and a baseline with brake bias `"n/a"` loads `brake_bias = 0`. -/
theorem claim_C10_witness :
    parse_value (PyVal.str "Set 2 (Balanced)") "Nm" = 0 ∧
    dget (EditableSetup.load
      { brake_bias := some (PyVal.str "n/a") }).values "brake_bias" =
      some 0 :=
  ⟨claim_C10.1 "Set 2 (Balanced)" "Nm" (by decide),
   claim_C10.2 { brake_bias := some (PyVal.str "n/a") } "n/a" rfl (by decide)⟩

end RallyWorks
